import Mathlib

/-!
Verification of `src/python_example.py`, the single source file of the
repository.  The script gathers a fixed set of runtime facts, prints them
as lines on standard output, and returns the string "Setup successful".

The embedding is shallow: the runtime facts the script reads (`sys.version`,
`os.getcwd()`, `sys.prefix`, the optional `sys.real_prefix` and
`sys.base_prefix` attributes, and `__file__`) are collected in an `Env`
record, and `print` is modelled as appending a line to an output buffer in
a `PyState` record.  `mainFn` is a pure function from state to state paired
with its return value, mirroring the source line by line.
-/

/-- The runtime facts `mainFn` inspects.  `version` models `sys.version`,
`cwd` models `os.getcwd()`, `sysPref` models `sys.prefix`, `realPref` is
`some v` exactly when the legacy attribute `sys.real_prefix` is present
(with value `v`), `basePref` likewise models the optional
`sys.base_prefix`, and `scriptFile` models `__file__`, the absolute
location of the entry script. -/
structure Env where
  version : String
  cwd : String
  sysPref : String
  realPref : Option String
  basePref : Option String
  scriptFile : String
deriving DecidableEq, Repr

/-- Process state: the (immutable) environment together with the lines
written to standard output so far, in order. -/
structure PyState where
  env : Env
  out : List String
deriving DecidableEq, Repr

/-- `print(s)`: append one line to standard output. -/
def printLine (s : String) (st : PyState) : PyState :=
  { st with out := st.out ++ [s] }

/-- Line 17 of the source:
`hasattr(sys, 'real_prefix') or (hasattr(sys, 'base_prefix') and sys.base_prefix != sys.prefix)`. -/
def inVirtualEnv (e : Env) : Bool :=
  e.realPref.isSome ||
    (match e.basePref with
     | some bp => bp != e.sysPref
     | none => false)

/-- Split a list of characters on `'/'` into path fields (the raw fields,
empty strings included, as produced by splitting on the separator). -/
def splitOnSlash : List Char → List String
  | [] => [""]
  | c :: rest =>
    let r := splitOnSlash rest
    if c = '/' then "" :: r
    else
      match r with
      | [] => [String.mk [c]]
      | s :: ss => String.mk (c :: s.data) :: ss

/-- The components of a POSIX path as `pathlib.PurePosixPath` parses them:
split on `'/'`, dropping empty fields and `"."` fields. -/
def pathComponents (p : String) : List String :=
  (splitOnSlash p.data).filter (fun c => c != "" && c != ".")

/-- Join components with `'/'`. -/
def joinSlash : List String → String
  | [] => ""
  | [s] => s
  | s :: t :: rest => s ++ "/" ++ joinSlash (t :: rest)

/-- `Path(p).parent` of `pathlib` for POSIX paths: drop the last component;
the parent of a bare filename is `"."` and the parent of the root is `"/"`. -/
def parentDir (p : String) : String :=
  let comps := (pathComponents p).dropLast
  if p.data.head? = some '/' then
    "/" ++ joinSlash comps
  else
    match comps with
    | [] => "."
    | cs => joinSlash cs

/-- The startup banner printed on line 12 of the source. -/
def startupBanner : String := "🐍 AI Pop Culture News - Python Setup Complete!"

/-- The status line printed on line 18 of the source. -/
def venvYesLine : String := "✅ Running in virtual environment"

/-- The status line printed on line 20 of the source. -/
def venvNoLine : String := "⚠️  Not running in virtual environment"

/-- The closing banner printed on line 25 of the source. -/
def closingBanner : String := "✅ Python environment working correctly!"

/-- The function `mainFn` of `src/python_example.py`, lines 11-26: each
`print` call appends one line to the output buffer, and the function
returns the string literal of line 26. -/
def mainFn (st : PyState) : PyState × String :=
  let st := printLine startupBanner st
  let st := printLine ("Python version: " ++ st.env.version) st
  let st := printLine ("Current working directory: " ++ st.env.cwd) st
  let st := printLine ("Virtual environment: " ++ st.env.sysPref) st
  let st := if inVirtualEnv st.env then printLine venvYesLine st
            else printLine venvNoLine st
  let st := printLine ("Project root: " ++ parentDir st.env.scriptFile) st
  let st := printLine closingBanner st
  (st, "Setup successful")

/-- The lines `mainFn` writes when run with an empty output buffer. -/
def mainOutput (e : Env) : List String :=
  (mainFn { env := e, out := [] }).1.out

/-- Lines 28-29 of the source: the module-level guard.  When the file is
loaded under module name `name`, `mainFn()` is invoked exactly when
`name = "__main__"`; the second component records the value the call to
`mainFn()` produced (`none` when `mainFn` was not invoked; the source discards
the value either way). -/
def moduleEntry (name : String) (st : PyState) : PyState × Option String :=
  if name = "__main__" then
    let r := mainFn st
    (r.1, some r.2)
  else
    (st, none)

/-- A sample environment used to instantiate hypotheses at concrete inputs. -/
def sampleEnv : Env :=
  { version := "3.11.0"
    cwd := "/home/user"
    sysPref := "/usr"
    realPref := none
    basePref := some "/usr"
    scriptFile := "/home/user/app.py" }

/-- The environment of the concrete scenario of §8 of the spec, with the
runtime version and the base-prefix value left as parameters. -/
def scenarioEnv (v bp : String) : Env :=
  { version := v
    cwd := "/home/user/project"
    sysPref := "/home/user/project/.venv"
    realPref := none
    basePref := some bp
    scriptFile := "/home/user/project/app.py" }

/-- First of a pair of environments for two successive runs that differ
only in the working directory and the active prefix. -/
def c7e1 : Env :=
  { version := "3.11.0"
    cwd := "/a"
    sysPref := "/usr"
    realPref := none
    basePref := some "/usr"
    scriptFile := "/a/s.py" }

/-- Second of the pair: same environment as `c7e1` except for the working
directory and the active prefix. -/
def c7e2 : Env :=
  { c7e1 with cwd := "/b", sysPref := "/a/.venv" }

theorem data_append_eq (s t : String) : (s ++ t).data = s.data ++ t.data := by
  cases s; cases t; rfl

theorem label_append_ne (p q v : String)
    (hp : p.data ≠ []) (h : p.data.head? ≠ q.data.head?) : p ++ v ≠ q := by
  intro he
  apply h
  rw [← he, data_append_eq]
  cases hd : p.data with
  | nil => exact absurd hd hp
  | cons a as => rfl

theorem mainOutput_eq (e : Env) :
    mainOutput e =
      [startupBanner,
       "Python version: " ++ e.version,
       "Current working directory: " ++ e.cwd,
       "Virtual environment: " ++ e.sysPref,
       if inVirtualEnv e then venvYesLine else venvNoLine,
       "Project root: " ++ parentDir e.scriptFile,
       closingBanner] := by
  cases h : inVirtualEnv e <;> simp [mainOutput, mainFn, printLine, h]

/-- C1: the virtual-environment flag is true exactly when a legacy
`real_prefix` attribute is present, or when a `base_prefix` attribute
exists and differs from the active prefix; the fifth output line is the
celebratory line when the flag is true and the warning line otherwise. -/
theorem C1_venv_flag (e : Env) :
    (inVirtualEnv e = true ↔
      e.realPref.isSome = true ∨ ∃ bp, e.basePref = some bp ∧ bp ≠ e.sysPref) ∧
    (mainOutput e).getD 4 "" =
      (if inVirtualEnv e then venvYesLine else venvNoLine) := by
  constructor
  · unfold inVirtualEnv
    cases hr : e.realPref <;> cases hb : e.basePref <;>
      simp [hr, hb, bne_iff_ne]
  · rw [mainOutput_eq]
    cases inVirtualEnv e <;> simp

/-- C2: the printed project-root line is the fixed label followed by the
parent directory of the script location, and it does not depend on the
working directory of the caller. -/
theorem C2_project_root (e : Env) (c : String) :
    (mainOutput e).getD 5 "" = "Project root: " ++ parentDir e.scriptFile ∧
    (mainOutput { e with cwd := c }).getD 5 "" = (mainOutput e).getD 5 "" := by
  rw [mainOutput_eq, mainOutput_eq]
  constructor
  · cases inVirtualEnv e <;> simp
  · cases h : inVirtualEnv e <;>
      cases h2 : inVirtualEnv { e with cwd := c } <;> simp

/-- C3: for every environment, the output contains exactly one occurrence
of the two virtual-environment status lines: never both and never neither. -/
theorem C3_exactly_one_status (e : Env) :
    (mainOutput e).count venvYesLine + (mainOutput e).count venvNoLine = 1 := by
  have h1 : "Python version: " ++ e.version ≠ venvYesLine :=
    label_append_ne _ _ _ (by decide) (by decide)
  have h2 : "Python version: " ++ e.version ≠ venvNoLine :=
    label_append_ne _ _ _ (by decide) (by decide)
  have h3 : "Current working directory: " ++ e.cwd ≠ venvYesLine :=
    label_append_ne _ _ _ (by decide) (by decide)
  have h4 : "Current working directory: " ++ e.cwd ≠ venvNoLine :=
    label_append_ne _ _ _ (by decide) (by decide)
  have h5 : "Virtual environment: " ++ e.sysPref ≠ venvYesLine :=
    label_append_ne _ _ _ (by decide) (by decide)
  have h6 : "Virtual environment: " ++ e.sysPref ≠ venvNoLine :=
    label_append_ne _ _ _ (by decide) (by decide)
  have h7 : "Project root: " ++ parentDir e.scriptFile ≠ venvYesLine :=
    label_append_ne _ _ _ (by decide) (by decide)
  have h8 : "Project root: " ++ parentDir e.scriptFile ≠ venvNoLine :=
    label_append_ne _ _ _ (by decide) (by decide)
  have hb1 : startupBanner ≠ venvYesLine := by decide
  have hb2 : startupBanner ≠ venvNoLine := by decide
  have hb3 : closingBanner ≠ venvYesLine := by decide
  have hb4 : closingBanner ≠ venvNoLine := by decide
  have hyn : venvYesLine ≠ venvNoLine := by decide
  rw [mainOutput_eq]
  cases h : inVirtualEnv e <;>
    simp [List.count_cons, h1, h2, h3, h4, h5, h6, h7, h8,
      hb1, hb2, hb3, hb4, hyn, hyn.symm]

/-- C4 counterexample: on a concrete environment the output has seven
lines, not six as the claim states. -/
theorem C4_counterexample : (mainOutput sampleEnv).length ≠ 6 := by decide

/-- C4 (amended: seven lines, not six): the output consists of exactly
seven fixed lines in the stated order — the startup banner, the version
line, the working-directory line, the prefix line, one of the two
virtual-environment status lines, the project-root line, and the closing
banner — appended to whatever was on standard output before, with no other
output. -/
theorem C4_seven_lines (st : PyState) :
    (mainFn st).1.out =
      st.out ++
        [startupBanner,
         "Python version: " ++ st.env.version,
         "Current working directory: " ++ st.env.cwd,
         "Virtual environment: " ++ st.env.sysPref,
         if inVirtualEnv st.env then venvYesLine else venvNoLine,
         "Project root: " ++ parentDir st.env.scriptFile,
         closingBanner] ∧
    (mainOutput st.env).length = 7 := by
  constructor
  · cases h : inVirtualEnv st.env <;> simp [mainFn, printLine, h]
  · rw [mainOutput_eq]; rfl

/-- C5: `mainFn` always returns the literal string "Setup successful",
whatever the environment and whichever branch of the virtual-environment
conditional is taken; as a total Lean function it raises no exception. -/
theorem C5_returns_success (st : PyState) (r b : Option String) :
    (mainFn st).2 = "Setup successful" ∧
    (mainFn { st with env := { st.env with realPref := r, basePref := b } }).2 =
      (mainFn st).2 := by
  exact ⟨rfl, rfl⟩

/-- C6: `mainFn` is purely observational: the environment component of the
state (working directory, prefix attributes, script location, version) is
returned unchanged, and the only effect is appending the fixed sequence of
lines to the standard-output buffer. -/
theorem C6_pure (st : PyState) :
    (mainFn st).1.env = st.env ∧
    (mainFn st).1.out = st.out ++ mainOutput st.env := by
  constructor
  · cases h : inVirtualEnv st.env <;> simp [mainFn, printLine, h]
  · rw [mainOutput_eq]
    cases h : inVirtualEnv st.env <;> simp [mainFn, printLine, h]

/-- C7 counterexample: two runs whose environments agree except for the
working directory and the active prefix (here the second run is inside an
isolated environment) produce outputs that also differ in the
virtual-environment status line (index 4), which is neither the
working-directory line (index 2) nor the prefix line (index 3). -/
theorem C7_counterexample :
    c7e2 = { c7e1 with cwd := c7e2.cwd, sysPref := c7e2.sysPref } ∧
    (mainOutput c7e1).getD 4 "" ≠ (mainOutput c7e2).getD 4 "" := by decide

/-- C7 (amended: the status line is also excepted): two successive runs
with the same interpreter version and script location produce
byte-identical output except for the working-directory line, the prefix
line and the virtual-environment status line; all other lines — the two
banners, the version line and the project-root line — are identical, and a
run is deterministic in its environment. -/
theorem C7_stable_lines (e : Env) (c p : String) (r b : Option String) :
    (mainOutput { e with cwd := c, sysPref := p, realPref := r, basePref := b }).getD 0 ""
        = (mainOutput e).getD 0 "" ∧
    (mainOutput { e with cwd := c, sysPref := p, realPref := r, basePref := b }).getD 1 ""
        = (mainOutput e).getD 1 "" ∧
    (mainOutput { e with cwd := c, sysPref := p, realPref := r, basePref := b }).getD 5 ""
        = (mainOutput e).getD 5 "" ∧
    (mainOutput { e with cwd := c, sysPref := p, realPref := r, basePref := b }).getD 6 ""
        = (mainOutput e).getD 6 "" := by
  rw [mainOutput_eq, mainOutput_eq]
  refine ⟨by simp, by simp, ?_, by simp⟩
  cases h1 : inVirtualEnv { e with cwd := c, sysPref := p, realPref := r, basePref := b } <;>
    cases h2 : inVirtualEnv e <;> simp

/-- C9: changing only the prefix attributes that decide the
virtual-environment flag (the `real_prefix` attribute and the
`base_prefix` attribute), with the active prefix unchanged, changes at
most the status line: the first four lines, the last two lines and the
return value are identical. -/
theorem C9_prefix_noninterference (e : Env) (r b : Option String) :
    (mainOutput { e with realPref := r, basePref := b }).take 4 =
      (mainOutput e).take 4 ∧
    (mainOutput { e with realPref := r, basePref := b }).drop 5 =
      (mainOutput e).drop 5 ∧
    (mainFn { env := { e with realPref := r, basePref := b }, out := [] }).2 =
      (mainFn { env := e, out := [] }).2 := by
  rw [mainOutput_eq, mainOutput_eq]
  exact ⟨by simp, by simp, rfl⟩

/-- C10: when the file is loaded under a module name other than
`"__main__"`, `mainFn` is not invoked: the output buffer is unchanged and
no success value is produced. -/
theorem C10_module_guard (name : String) (st : PyState)
    (h : name ≠ "__main__") : moduleEntry name st = (st, none) := by
  simp [moduleEntry, h]

/-- C10 witness: loading under the module name "python_example" produces
no output and no return value. -/
theorem C10_module_guard_witness :
    "python_example" ≠ "__main__" ∧
    moduleEntry "python_example" { env := sampleEnv, out := [] } =
      ({ env := sampleEnv, out := [] }, none) :=
  ⟨by decide,
   C10_module_guard "python_example" { env := sampleEnv, out := [] } (by decide)⟩

/-- C8: invoked from working directory /home/user/project with the script
at /home/user/project/app.py inside an isolated environment rooted at
/home/user/project/.venv (base prefix different from the active prefix),
the output contains the working-directory line for /home/user/project, the
project-root line for /home/user/project, and the celebratory
virtual-environment status line. -/
theorem C8_scenario (v bp : String) (h : bp ≠ "/home/user/project/.venv") :
    "Current working directory: /home/user/project" ∈ mainOutput (scenarioEnv v bp) ∧
    "Project root: /home/user/project" ∈ mainOutput (scenarioEnv v bp) ∧
    venvYesLine ∈ mainOutput (scenarioEnv v bp) := by
  have hv : inVirtualEnv (scenarioEnv v bp) = true := by
    simp [inVirtualEnv, scenarioEnv, bne_iff_ne, h]
  have hp : parentDir "/home/user/project/app.py" = "/home/user/project" := by decide
  simp only [scenarioEnv] at hv
  refine ⟨?_, ?_, ?_⟩ <;> rw [mainOutput_eq] <;> simp [scenarioEnv, hp, hv]

/-- C8 witness: the scenario with runtime version "3.11.0" and base prefix
"/usr". -/
theorem C8_scenario_witness :
    "/usr" ≠ "/home/user/project/.venv" ∧
    ("Current working directory: /home/user/project" ∈
        mainOutput (scenarioEnv "3.11.0" "/usr") ∧
      "Project root: /home/user/project" ∈ mainOutput (scenarioEnv "3.11.0" "/usr") ∧
      venvYesLine ∈ mainOutput (scenarioEnv "3.11.0" "/usr")) :=
  ⟨by decide, C8_scenario "3.11.0" "/usr" (by decide)⟩
